import Mathlib

/-!
Shallow embedding of `src/cloudflare-worker/worker.js` (the DAEMON Dashboard
Google Calendar OAuth worker) and proofs about its request handlers.

Modelling conventions:
* The Cloudflare KV namespace `env.OAUTH_TOKENS` is an association list from
  string keys to values.  The worker stores two shapes of values: plain strings
  (the refresh token, the literal string "valid" for CSRF state entries) and
  the JSON-serialised token record written at the key `token_data`.  JSON
  serialisation is abstracted: a stored token record is kept as a typed value
  `Val.tok`, and a string stored where a token record is expected models the
  JSON.parse failure path (an exception propagating to the top-level catch).
* `Date.now()` is an explicit parameter `now : Nat` (milliseconds); the
  worker reads the clock more than once per request but the model uses a
  single instant, as the spec does.
* `crypto.randomUUID()` is an explicit parameter `rand : String`.
* Outbound `fetch` calls are an oracle passed in as part of the input: each
  upstream exchange is either `.error msg` (a thrown network/JSON failure
  carrying the exception message) or `.ok` with the parsed JSON payload.
  Handlers additionally report how many outbound fetches they performed.
* KV expiration TTLs (the 5-minute TTL on `oauth_state:*` entries) and the
  500 ms delay in the OTOBO handler are real-time behaviour outside the model.
* JavaScript truthiness on strings (empty string is falsy) is modelled by the
  `truthy*` helpers.
-/

namespace Worker

/-- The `ALLOWED_ORIGINS` constant of the worker. -/
def ALLOWED_ORIGINS : List String :=
  ["https://sysopbeta.be",
   "https://b3.wtf",
   "https://berthuygens.github.io",
   "http://localhost:8080",
   "http://127.0.0.1:8080"]

/-- The cached access-token record the worker JSON-serialises at key
`token_data`. -/
structure TokenData where
  access_token : String
  expires_at : Nat
deriving DecidableEq, Repr

/-- A value stored in the KV namespace: a plain string, or the (abstracted)
JSON serialisation of a `TokenData` record. -/
inductive Val where
  | str (s : String)
  | tok (t : TokenData)
deriving DecidableEq, Repr

/-- The KV namespace `env.OAUTH_TOKENS`, as an association list. -/
abbrev Store := List (String × Val)

/-- `env.OAUTH_TOKENS.get(k)`. -/
def kvGet (s : Store) (k : String) : Option Val :=
  (s.find? (fun p => p.1 == k)).map (·.2)

/-- `env.OAUTH_TOKENS.delete(k)`. -/
def kvDelete (s : Store) (k : String) : Store :=
  s.filter (fun p => !(p.1 == k))

/-- `env.OAUTH_TOKENS.put(k, v)` (the store keeps one binding per key). -/
def kvPut (s : Store) (k : String) (v : Val) : Store :=
  (k, v) :: kvDelete s k

/-- JavaScript truthiness of a nullable string (`null` and the empty string
are falsy). -/
def truthyStr : Option String → Bool
  | none => false
  | some s => s != ""

/-- JavaScript truthiness of a stored KV value (a string is falsy exactly
when empty; an object is always truthy). -/
def truthyVal : Val → Bool
  | .str s => s != ""
  | .tok _ => true

/-- JavaScript truthiness of the result of a KV `get` (`null` is falsy). -/
def truthyValO : Option Val → Bool
  | none => false
  | some v => truthyVal v

/-- Environment bindings of the worker (`env`).  Absent bindings are
modelled as the empty string, which is falsy like `undefined`. -/
structure Env where
  API_KEY : String
  GOOGLE_CLIENT_ID : String
  GOOGLE_CLIENT_SECRET : String
  OTRS_USERNAME : String
  OTRS_PASSWORD : String
deriving DecidableEq, Repr

/-- The parts of an incoming request the worker inspects: method, URL path,
URL origin (used to build the redirect URI), query parameters, and the
`Origin` and `Authorization` headers. -/
structure Req where
  method : String
  path : String
  urlOrigin : String
  query : List (String × String)
  originHeader : Option String
  authHeader : Option String
deriving DecidableEq, Repr

/-- `url.searchParams.get(k)`. -/
def queryGet (q : List (String × String)) (k : String) : Option String :=
  (q.find? (fun p => p.1 == k)).map (·.2)

/-- `authHeader.startsWith(pre)`, computed on the character lists so that the
kernel can evaluate it. -/
def jsStartsWith (s pre : String) : Bool :=
  pre.data.isPrefixOf s.data

/-- `authHeader.slice(n)` (drop the first `n` characters). -/
def jsSlice (s : String) (n : Nat) : String :=
  ⟨s.data.drop n⟩

/-- `validateApiKey`: the `Authorization` header must be `Bearer <API_KEY>`. -/
def validateApiKey (req : Req) (env : Env) : Bool :=
  match req.authHeader with
  | none => false
  | some h => jsStartsWith h "Bearer " && (jsSlice h 7 == env.API_KEY)

/-- The dynamic CORS origin computation shared by `handleOptions` and the
`fetch` entry point: echo the request `Origin` if allowed, else the first
allowed origin. -/
def corsHeaderOf (origin : Option String) : String :=
  match origin with
  | some o => if ALLOWED_ORIGINS.contains o then o else ALLOWED_ORIGINS.headD ""
  | none => ALLOWED_ORIGINS.headD ""

/-- An OTOBO ticket, with the two fields the worker inspects: `OwnerID`
(compared against 3) and `Changed` (a date, modelled as milliseconds, used
for sorting). -/
structure Ticket where
  ownerID : Int
  changed : Nat
deriving DecidableEq, Repr

/-- The HTML pages `handleCallback` can produce. -/
inductive Page where
  | errParam (escapedError : String)
  | missingState
  | invalidState
  | noCode
  | exchangeFailed (msg : String)
  | oauthSuccess (accessToken : String) (expiresIn : Nat)
deriving DecidableEq, Repr

/-- Response bodies, one constructor per distinct payload shape the worker
produces.  `.thrown` is internal: an exception travelling to the top-level
catch of the `fetch` entry point, which turns it into a 500 JSON error. -/
inductive Body where
  | empty
  | jsonError (error : String) (message : Option String)
  | jsonErrorDetails (error : String) (details : String)
  | tokenJson (access_token : String) (expires_in : Nat)
  | successJson
  | statusJson (authenticated : Bool)
  | ticketsJson (tickets : List Ticket)
  | xmlBody (xml : String)
  | html (p : Page)
  | redirectAuth (clientId : String) (redirectUri : String) (st : String)
  | thrown (msg : String)
deriving DecidableEq, Repr

/-- A response: status, the `Access-Control-Allow-Origin` header when the
response carries one, and the body. -/
structure Resp where
  status : Nat
  cors : Option String
  body : Body
deriving DecidableEq, Repr

/-- `jsonResponse(data, status, origin)`. -/
def jsonResponse (body : Body) (status : Nat) (origin : String) : Resp :=
  { status := status, cors := some origin, body := body }

/-- `htmlResponse(html)` (no CORS header). -/
def htmlResponse (p : Page) : Resp :=
  { status := 200, cors := none, body := .html p }

/-- `str.replace(/c/g, rep)` for a single-character pattern, computed on the
character list so that the kernel can evaluate it. -/
def replaceChar (c : Char) (rep : String) (s : String) : String :=
  ⟨s.data.foldr (fun a acc => if a = c then rep.data ++ acc else a :: acc) []⟩

/-- `escapeHtml` (every pattern in the source is a single character, replaced
globally). -/
def escapeHtml (s : String) : String :=
  if s == "" then ""
  else replaceChar '\x27' "&#039;"
    (replaceChar '"' "&quot;"
      (replaceChar '>' "&gt;"
        (replaceChar '<' "&lt;"
          (replaceChar '&' "&amp;" s))))

/-- `handleOptions`: the CORS preflight response. -/
def handleOptions (req : Req) : Resp :=
  { status := 200, cors := some (corsHeaderOf req.originHeader), body := .empty }

/-- The result of running a handler: the response, the KV store afterwards,
and the number of outbound fetches performed. -/
structure Outcome where
  resp : Resp
  store : Store
  fetches : Nat
deriving DecidableEq, Repr

/-- The parsed JSON payload of a Google token-endpoint response.  Optional
fields absent from the JSON are `none`; `error` is checked for truthiness. -/
structure TokenWire where
  error : Option String
  error_description : Option String
  access_token : String
  expires_in : Nat
  refresh_token : Option String
deriving DecidableEq, Repr

/-- The upstream RSS feed response: HTTP status and body text. -/
structure RssWire where
  status : Nat
  bodyText : String
deriving DecidableEq, Repr

/-- The parsed JSON payload of an OTOBO `Search` response (`Error`
truthiness and the `TicketID` array, absent meaning empty). -/
structure SearchWire where
  hasError : Bool
  ticketID : List Nat
deriving DecidableEq, Repr

/-- The OTOBO upstream oracle: the login response, the two search responses,
and per-ticket-id `Get` responses.  `.error msg` models a thrown
network/JSON failure with exception message `msg`. -/
structure OtrsUp where
  login : Except String (Option String)
  searchNew : Except String SearchWire
  searchOpen : Except String SearchWire
  get : Nat → Except String (Option Ticket)

/-- All upstream responses a single worker invocation may consume. -/
structure Up where
  tok : Except String TokenWire
  rss : Except String RssWire
  otrs : OtrsUp

/-- `handleAuth`: store a fresh CSRF state (the randomness is the explicit
parameter `rand`) and redirect to the Google consent screen. -/
def handleAuth (env : Env) (req : Req) (store : Store) (rand : String) : Outcome :=
  let st := rand
  let redirectUri := req.urlOrigin ++ "/callback"
  let store1 := kvPut store ("oauth_state:" ++ st) (.str "valid")
  { resp := { status := 302, cors := none,
              body := .redirectAuth env.GOOGLE_CLIENT_ID redirectUri st },
    store := store1, fetches := 0 }

/-- `handleCallback`: validate the CSRF state, delete it, exchange the code
for tokens, store them, and return the success page. -/
def handleCallback (req : Req) (env : Env) (store : Store) (now : Nat)
    (up : Except String TokenWire) : Outcome :=
  let error := queryGet req.query "error"
  let st := queryGet req.query "state"
  let code := queryGet req.query "code"
  if truthyStr error then
    { resp := htmlResponse (.errParam (escapeHtml (error.getD ""))),
      store := store, fetches := 0 }
  else if !truthyStr st then
    { resp := htmlResponse .missingState, store := store, fetches := 0 }
  else
    let stateKey := "oauth_state:" ++ st.getD ""
    if !truthyValO (kvGet store stateKey) then
      { resp := htmlResponse .invalidState, store := store, fetches := 0 }
    else
      let store1 := kvDelete store stateKey
      if !truthyStr code then
        { resp := htmlResponse .noCode, store := store1, fetches := 0 }
      else
        match up with
        | .error m =>
          { resp := { status := 0, cors := none, body := .thrown m },
            store := store1, fetches := 1 }
        | .ok tokens =>
          if truthyStr tokens.error then
            { resp := htmlResponse (.exchangeFailed
                (if truthyStr tokens.error_description then
                   tokens.error_description.getD ""
                 else tokens.error.getD "")),
              store := store1, fetches := 1 }
          else
            let store2 :=
              if truthyStr tokens.refresh_token then
                kvPut store1 "refresh_token" (.str (tokens.refresh_token.getD ""))
              else store1
            let store3 := kvPut store2 "token_data"
              (.tok { access_token := tokens.access_token,
                      expires_at := now + tokens.expires_in * 1000 })
            { resp := htmlResponse (.oauthSuccess tokens.access_token tokens.expires_in),
              store := store3, fetches := 1 }

/-- The refresh-token grant part of `handleToken` (the code after the cache
check falls through to this). -/
def tokenRefresh (store : Store) (now : Nat) (corsHeader : String)
    (up : Except String TokenWire) : Outcome :=
  match up with
  | .error m =>
    { resp := { status := 0, cors := none, body := .thrown m },
      store := store, fetches := 1 }
  | .ok tokens =>
    if truthyStr tokens.error then
      let store1 :=
        if tokens.error == some "invalid_grant" then
          kvDelete (kvDelete store "refresh_token") "token_data"
        else store
      { resp := jsonResponse (.jsonError (tokens.error.getD "")
          (some (if truthyStr tokens.error_description then
                   tokens.error_description.getD ""
                 else "Token refresh failed"))) 401 corsHeader,
        store := store1, fetches := 1 }
    else
      let store1 := kvPut store "token_data"
        (.tok { access_token := tokens.access_token,
                expires_at := now + tokens.expires_in * 1000 })
      let store2 :=
        if truthyStr tokens.refresh_token then
          kvPut store1 "refresh_token" (.str (tokens.refresh_token.getD ""))
        else store1
      { resp := jsonResponse (.tokenJson tokens.access_token tokens.expires_in) 200 corsHeader,
        store := store2, fetches := 1 }

/-- `handleToken`: serve the cached access token while it is valid for more
than five minutes, otherwise run a refresh-token grant against Google. -/
def handleToken (env : Env) (store : Store) (now : Nat) (corsHeader : String)
    (up : Except String TokenWire) : Outcome :=
  if !truthyValO (kvGet store "refresh_token") then
    { resp := jsonResponse (.jsonError "not_authenticated"
        (some "No refresh token stored. Please authenticate first.")) 401 corsHeader,
      store := store, fetches := 0 }
  else
    match kvGet store "token_data" with
    | some (.tok td) =>
      if now + 300000 < td.expires_at then
        { resp := jsonResponse
            (.tokenJson td.access_token ((td.expires_at - now) / 1000)) 200 corsHeader,
          store := store, fetches := 0 }
      else tokenRefresh store now corsHeader up
    | some (.str _) =>
      { resp := { status := 0, cors := none,
                  body := .thrown "Unexpected token in JSON" },
        store := store, fetches := 0 }
    | none => tokenRefresh store now corsHeader up

/-- `handleLogout`: delete both stored tokens and report success. -/
def handleLogout (store : Store) (corsHeader : String) : Outcome :=
  { resp := jsonResponse .successJson 200 corsHeader,
    store := kvDelete (kvDelete store "refresh_token") "token_data", fetches := 0 }

/-- `handleStatus`: report whether a refresh token is stored (`!!refreshToken`). -/
def handleStatus (store : Store) (corsHeader : String) : Outcome :=
  { resp := jsonResponse (.statusJson (truthyValO (kvGet store "refresh_token"))) 200 corsHeader,
    store := store, fetches := 0 }

/-- The `allowedFeeds` whitelist of `handleRSS`. -/
def allowedFeeds : List String := ["https://ccb.belgium.be/advisories.xml"]

/-- `handleRSS`: proxy a whitelisted RSS feed. -/
def handleRSS (req : Req) (store : Store) (corsHeader : String)
    (up : Except String RssWire) : Outcome :=
  match queryGet req.query "url" with
  | none =>
    { resp := jsonResponse (.jsonError "Missing url parameter" none) 400 corsHeader,
      store := store, fetches := 0 }
  | some feedUrl =>
    if !allowedFeeds.contains feedUrl then
      { resp := jsonResponse (.jsonError "Feed not allowed" none) 403 corsHeader,
        store := store, fetches := 0 }
    else
      match up with
      | .error _ =>
        { resp := jsonResponse (.jsonError "Failed to fetch feed" none) 502 corsHeader,
          store := store, fetches := 1 }
      | .ok w =>
        if !(200 ≤ w.status && w.status ≤ 299) then
          { resp := jsonResponse (.jsonError ("Feed returned " ++ toString w.status) none)
              502 corsHeader,
            store := store, fetches := 1 }
        else
          { resp := { status := 200, cors := some corsHeader, body := .xmlBody w.bodyText },
            store := store, fetches := 1 }

/-- The per-ticket `Get` loop of `handleOTRSTickets`: one fetch per ticket id
until a throw, collecting `Ticket?.[0]` of each response.  Returns the
tickets (or the thrown message) and the number of fetches performed. -/
def fetchTickets (get : Nat → Except String (Option Ticket)) :
    List Nat → Except String (List Ticket) × Nat
  | [] => (.ok [], 0)
  | id :: rest =>
    match get id with
    | .error m => (.error m, 1)
    | .ok t? =>
      match fetchTickets get rest with
      | (.error m, n) => (.error m, n + 1)
      | (.ok ts, n) =>
        (.ok (match t? with | some t => t :: ts | none => ts), n + 1)

/-- Insertion into a list sorted by `Changed` descending. -/
def insertByChanged (t : Ticket) : List Ticket → List Ticket
  | [] => [t]
  | u :: us => if t.changed ≤ u.changed then u :: insertByChanged t us else t :: u :: us

/-- `tickets.sort` with comparator `new Date(b.Changed) - new Date(a.Changed)`:
sort by `Changed`, most recent first. -/
def sortByChangedDesc : List Ticket → List Ticket
  | [] => []
  | t :: ts => insertByChanged t (sortByChangedDesc ts)

/-- `handleOTRSTickets`: log in to OTOBO, run two searches, fetch each ticket,
filter by owner and sort by change date. -/
def handleOTRSTickets (env : Env) (store : Store) (corsHeader : String)
    (up : OtrsUp) : Outcome :=
  if env.OTRS_USERNAME == "" || env.OTRS_PASSWORD == "" then
    { resp := jsonResponse (.jsonError "OTOBO credentials not configured" none) 500 corsHeader,
      store := store, fetches := 0 }
  else
    match up.login with
    | .error m =>
      { resp := jsonResponse (.jsonErrorDetails "Failed to fetch OTOBO tickets" m) 502 corsHeader,
        store := store, fetches := 1 }
    | .ok sid? =>
      if !truthyStr sid? then
        { resp := jsonResponse (.jsonError "OTOBO login failed" none) 401 corsHeader,
          store := store, fetches := 1 }
      else
        match up.searchNew with
        | .error m =>
          { resp := jsonResponse (.jsonErrorDetails "Failed to fetch OTOBO tickets" m)
              502 corsHeader,
            store := store, fetches := 2 }
        | .ok newData =>
          match up.searchOpen with
          | .error m =>
            { resp := jsonResponse (.jsonErrorDetails "Failed to fetch OTOBO tickets" m)
                502 corsHeader,
              store := store, fetches := 3 }
          | .ok openData =>
            if newData.hasError || openData.hasError then
              { resp := jsonResponse (.jsonError "OTOBO search failed" none) 500 corsHeader,
                store := store, fetches := 3 }
            else
              let allTicketIds := newData.ticketID ++ openData.ticketID
              if allTicketIds.isEmpty then
                { resp := jsonResponse (.ticketsJson []) 200 corsHeader,
                  store := store, fetches := 3 }
              else
                match fetchTickets up.get allTicketIds with
                | (.error m, n) =>
                  { resp := jsonResponse (.jsonErrorDetails "Failed to fetch OTOBO tickets" m)
                      502 corsHeader,
                    store := store, fetches := 3 + n }
                | (.ok allTickets, n) =>
                  let tickets := allTickets.filter (fun t => t.ownerID == 3)
                  { resp := jsonResponse (.ticketsJson (sortByChangedDesc tickets)) 200 corsHeader,
                    store := store, fetches := 3 + n }

/-- The public paths exempt from API-key validation. -/
def publicPaths : List String := ["/auth", "/callback"]

/-- The routing switch of the `fetch` entry point. -/
def route (req : Req) (env : Env) (store : Store) (now : Nat) (rand : String)
    (corsHeader : String) (up : Up) : Outcome :=
  if req.path == "/auth" then handleAuth env req store rand
  else if req.path == "/callback" then handleCallback req env store now up.tok
  else if req.path == "/token" then handleToken env store now corsHeader up.tok
  else if req.path == "/logout" then handleLogout store corsHeader
  else if req.path == "/status" then handleStatus store corsHeader
  else if req.path == "/rss" then handleRSS req store corsHeader up.rss
  else if req.path == "/otrs/tickets" then handleOTRSTickets env store corsHeader up.otrs
  else { resp := jsonResponse (.jsonError "Not found" none) 404 corsHeader,
         store := store, fetches := 0 }

/-- The top-level catch of the `fetch` entry point: an exception becomes a
500 JSON error carrying the exception message. -/
def postCatch (corsHeader : String) (out : Outcome) : Outcome :=
  match out.resp.body with
  | .thrown m => { out with resp := jsonResponse (.jsonError m none) 500 corsHeader }
  | _ => out

/-- The `fetch` entry point of the worker: preflight short-circuit, API-key
gate, routing switch, and the top-level catch. -/
def workerFetch (req : Req) (env : Env) (store : Store) (now : Nat)
    (rand : String) (up : Up) : Outcome :=
  if req.method == "OPTIONS" then
    { resp := handleOptions req, store := store, fetches := 0 }
  else
    let corsHeader := corsHeaderOf req.originHeader
    if !publicPaths.contains req.path && !validateApiKey req env then
      { resp := jsonResponse (.jsonError "Unauthorized" none) 401 corsHeader,
        store := store, fetches := 0 }
    else
      postCatch corsHeader (route req env store now rand corsHeader up)

/-- One worker invocation of a request sequence: its request, environment,
clock, randomness and upstream responses. -/
structure StepIn where
  req : Req
  env : Env
  now : Nat
  rand : String
  up : Up

/-- Run a sequence of worker invocations, threading the KV store. -/
def runSeq (store : Store) : List StepIn → Store
  | [] => store
  | i :: is => runSeq (workerFetch i.req i.env store i.now i.rand i.up).store is


/-! ### Concrete fixtures for witnesses and counterexamples -/

/-- An upstream oracle where every outbound call fails with a network error. -/
def upNet : Up :=
  { tok := .error "NetworkError", rss := .error "NetworkError",
    otrs := { login := .error "NetworkError", searchNew := .error "NetworkError",
              searchOpen := .error "NetworkError", get := fun _ => .error "NetworkError" } }

/-- A concrete environment: API key `k`, all other bindings set. -/
def envA : Env :=
  { API_KEY := "k", GOOGLE_CLIENT_ID := "cid", GOOGLE_CLIENT_SECRET := "sec",
    OTRS_USERNAME := "u", OTRS_PASSWORD := "p" }

/-- A concrete request builder (fixed URL origin). -/
def reqOf (method path : String) (query : List (String × String))
    (origin auth : Option String) : Req :=
  { method := method, path := path, urlOrigin := "https://worker.example",
    query := query, originHeader := origin, authHeader := auth }

/-! ### Association-list lemmas for the KV store -/

theorem kvDelete_cons (p : String × Val) (t : Store) (k : String) :
    kvDelete (p :: t) k = if p.1 = k then kvDelete t k else p :: kvDelete t k := by
  by_cases h : p.1 = k <;> simp [kvDelete, List.filter_cons, h]

theorem kvGet_cons (p : String × Val) (t : Store) (k : String) :
    kvGet (p :: t) k = if p.1 = k then some p.2 else kvGet t k := by
  by_cases h : p.1 = k <;> simp [kvGet, List.find?_cons, h]

theorem kvGet_kvDelete_self (s : Store) (k : String) : kvGet (kvDelete s k) k = none := by
  induction s with
  | nil => rfl
  | cons p t ih =>
    rw [kvDelete_cons]
    by_cases h : p.1 = k
    · simp [h, ih]
    · simp [kvGet_cons, h, ih]

theorem kvGet_kvDelete_ne (s : Store) (k k2 : String) (h : k2 ≠ k) :
    kvGet (kvDelete s k) k2 = kvGet s k2 := by
  induction s with
  | nil => rfl
  | cons p t ih =>
    rw [kvDelete_cons]
    by_cases hp : p.1 = k
    · have hpq : ¬ k = k2 := fun e => h e.symm
      simp [kvGet_cons, hp, hpq, ih]
    · simp only [if_neg hp, kvGet_cons, ih]

theorem kvGet_kvPut_self (s : Store) (k : String) (v : Val) :
    kvGet (kvPut s k v) k = some v := by
  simp [kvPut, kvGet_cons]

theorem kvGet_kvPut_ne (s : Store) (k k2 : String) (v : Val) (h : k2 ≠ k) :
    kvGet (kvPut s k v) k2 = kvGet s k2 := by
  rw [kvPut, kvGet_cons]
  simp only [if_neg (show ¬ (k, v).1 = k2 from fun e => h e.symm)]
  exact kvGet_kvDelete_ne s k k2 h

/-! ### Routing helpers -/

/-- A non-OPTIONS request that passes the API-key gate reaches the routing
switch under the top-level catch. -/
theorem workerFetch_eq_route (req : Req) (env : Env) (store : Store)
    (now : Nat) (rand : String) (up : Up)
    (hm : req.method ≠ "OPTIONS")
    (hauth : req.path ∈ publicPaths ∨ validateApiKey req env = true) :
    workerFetch req env store now rand up =
      postCatch (corsHeaderOf req.originHeader)
        (route req env store now rand (corsHeaderOf req.originHeader) up) := by
  have h1 : (req.method == "OPTIONS") = false := by simp [hm]
  rcases hauth with h2 | h2
  · simp [workerFetch, h1, h2]
  · simp [workerFetch, h1, h2]

/-! ### Status sweeps: no handler produces a 404 -/

theorem handleToken_status_ne (env : Env) (store : Store) (now : Nat)
    (ch : String) (up : Except String TokenWire) :
    (handleToken env store now ch up).resp.status ≠ 404 := by
  intro h
  simp only [handleToken, tokenRefresh] at h
  repeat' split at h
  all_goals simp [jsonResponse, htmlResponse] at h

theorem handleCallback_status_ne (req : Req) (env : Env) (store : Store) (now : Nat)
    (up : Except String TokenWire) :
    (handleCallback req env store now up).resp.status ≠ 404 := by
  intro h
  simp only [handleCallback] at h
  repeat' split at h
  all_goals simp [jsonResponse, htmlResponse] at h

theorem handleRSS_status_ne (req : Req) (store : Store) (ch : String)
    (up : Except String RssWire) :
    (handleRSS req store ch up).resp.status ≠ 404 := by
  intro h
  simp only [handleRSS] at h
  repeat' split at h
  all_goals simp [jsonResponse, htmlResponse] at h

theorem handleOTRSTickets_status_ne (env : Env) (store : Store) (ch : String)
    (up : OtrsUp) :
    (handleOTRSTickets env store ch up).resp.status ≠ 404 := by
  intro h
  simp only [handleOTRSTickets] at h
  repeat' split at h
  all_goals simp [jsonResponse, htmlResponse] at h

theorem postCatch_status_ne_404 (ch : String) (out : Outcome)
    (h : out.resp.status ≠ 404) : (postCatch ch out).resp.status ≠ 404 := by
  unfold postCatch
  split
  · simp [jsonResponse]
  · exact h

/-- The seven paths the routing switch serves. -/
def servedPaths : List String :=
  ["/auth", "/callback", "/token", "/logout", "/status", "/rss", "/otrs/tickets"]

theorem workerFetch_status_ne_404 (req : Req) (env : Env) (store : Store)
    (now : Nat) (rand : String) (up : Up) (hmem : req.path ∈ servedPaths) :
    (workerFetch req env store now rand up).resp.status ≠ 404 := by
  by_cases hm : (req.method == "OPTIONS") = true
  · simp [workerFetch, hm, handleOptions]
  · by_cases hv : (!publicPaths.contains req.path && !validateApiKey req env) = true
    · have hv2 : req.path ∉ publicPaths ∧ validateApiKey req env = false := by
        simpa using hv
      simp [workerFetch, hm, hv2.1, hv2.2, jsonResponse]
    · have hre : workerFetch req env store now rand up =
          postCatch (corsHeaderOf req.originHeader)
            (route req env store now rand (corsHeaderOf req.originHeader) up) := by
        simp only [workerFetch, hm, Bool.false_eq_true, if_false, hv]
      rw [hre]
      apply postCatch_status_ne_404
      simp only [servedPaths, List.mem_cons, List.not_mem_nil, or_false] at hmem
      rcases hmem with hp | hp | hp | hp | hp | hp | hp
      all_goals simp only [route, hp]
      · simp [handleAuth]
      · exact handleCallback_status_ne req env store now up.tok
      · exact handleToken_status_ne env store now _ up.tok
      · simp [handleLogout, jsonResponse]
      · simp [handleStatus, jsonResponse]
      · exact handleRSS_status_ne req store _ up.rss
      · exact handleOTRSTickets_status_ne env store _ up.otrs


/-! ### Claim C7 -/

/-- Claim C7 (amended): the routing switch serves exactly seven endpoints
(/auth, /callback, /token, /logout, /status, /rss, /otrs/tickets), not three:
every non-OPTIONS request with a valid API key to any other path yields a 404
Not found JSON response with no fetch and no store change, and a request to a
served path never yields a 404. -/
theorem routing_serves_seven_endpoints (req : Req) (env : Env) (store : Store)
    (now : Nat) (rand : String) (up : Up) :
    (req.method ≠ "OPTIONS" → validateApiKey req env = true → ¬ req.path ∈ servedPaths →
      workerFetch req env store now rand up =
        { resp := jsonResponse (.jsonError "Not found" none) 404 (corsHeaderOf req.originHeader),
          store := store, fetches := 0 }) ∧
    (req.path ∈ servedPaths →
      (workerFetch req env store now rand up).resp.status ≠ 404) := by
  constructor
  · intro hm hk hp
    have h1 : (req.method == "OPTIONS") = false := by simp [hm]
    simp only [servedPaths, List.mem_cons, List.not_mem_nil, or_false, not_or] at hp
    obtain ⟨p1, p2, p3, p4, p5, p6, p7⟩ := hp
    have h2 : ¬ req.path ∈ publicPaths := by simp [publicPaths, p1, p2]
    simp [workerFetch, h1, h2, hk, p1, p2, p3, p4, p5, p6, p7, route, postCatch, jsonResponse]
  · exact workerFetch_status_ne_404 req env store now rand up

/-- Claim C7 counterexample: the /status endpoint (like /logout, /rss and
/otrs/tickets) is served rather than 404, so the routing is not the
three-endpoint pattern the claim states. -/
theorem status_endpoint_served_counterexample :
    (workerFetch (reqOf "GET" "/status" [] none (some "Bearer k")) envA [] 0 "r" upNet).resp.status
        = 200 ∧
    (workerFetch (reqOf "GET" "/status" [] none (some "Bearer k")) envA [] 0 "r" upNet).resp.status
        ≠ 404 := by
  constructor <;> decide

/-! ### Claim C8 -/

/-- Claim C8 (amended): every non-OPTIONS request whose path is not /auth and
not /callback and which does not carry an Authorization header of the form
Bearer API_KEY gets a 401 Unauthorized JSON response, with no outbound fetch
and the store unchanged.  (An OPTIONS preflight bypasses the API-key gate.) -/
theorem unauthorized_request_rejected (req : Req) (env : Env) (store : Store)
    (now : Nat) (rand : String) (up : Up)
    (hm : req.method ≠ "OPTIONS")
    (hp : ¬ req.path ∈ publicPaths)
    (hk : validateApiKey req env = false) :
    workerFetch req env store now rand up =
      { resp := jsonResponse (.jsonError "Unauthorized" none) 401 (corsHeaderOf req.originHeader),
        store := store, fetches := 0 } := by
  have h1 : (req.method == "OPTIONS") = false := by simp [hm]
  simp [workerFetch, h1, hp, hk]

/-- Claim C8 witness: a GET /token request with no Authorization header is
rejected with 401, no fetch, unchanged store. -/
theorem unauthorized_request_rejected_witness :
    workerFetch (reqOf "GET" "/token" [] none none) envA [] 0 "r" upNet =
      { resp := jsonResponse (.jsonError "Unauthorized" none) 401
          (corsHeaderOf (reqOf "GET" "/token" [] none none).originHeader),
        store := [], fetches := 0 } :=
  unauthorized_request_rejected (reqOf "GET" "/token" [] none none) envA [] 0 "r" upNet
    (by decide) (by decide) (by decide)

/-- Claim C8 counterexample: an OPTIONS request to /token without any
Authorization header is answered with the 200 CORS preflight response, not
401: the preflight short-circuit runs before the API-key gate. -/
theorem options_bypasses_auth_counterexample :
    (workerFetch (reqOf "OPTIONS" "/token" [] none none) envA [] 0 "r" upNet).resp.status = 200 ∧
    (workerFetch (reqOf "OPTIONS" "/token" [] none none) envA [] 0 "r" upNet).resp.status ≠ 401 := by
  constructor <;> decide

/-! ### Claim C5 -/

/-- Claim C5 (amended): the worker outcome is a function of the request, the
environment bindings, the key-value store, the clock reading, the randomness
drawn, and the upstream responses: two invocations agreeing on all of these
explicit inputs produce the same response and the same resulting store.  (The
clock, the entropy and the network are inputs of the code that are not
determined by request, environment and store alone.) -/
theorem outcome_function_of_explicit_inputs (r1 r2 : Req) (e1 e2 : Env)
    (s1 s2 : Store) (n1 n2 : Nat) (x1 x2 : String) (u1 u2 : Up)
    (hr : r1 = r2) (he : e1 = e2) (hs : s1 = s2) (hn : n1 = n2)
    (hx : x1 = x2) (hu : u1 = u2) :
    workerFetch r1 e1 s1 n1 x1 u1 = workerFetch r2 e2 s2 n2 x2 u2 := by
  subst hr
  subst he
  subst hs
  subst hn
  subst hx
  subst hu
  rfl

/-- Claim C5 witness. -/
theorem outcome_function_of_explicit_inputs_witness :
    workerFetch (reqOf "GET" "/status" [] none (some "Bearer k")) envA [] 0 "r" upNet =
      workerFetch (reqOf "GET" "/status" [] none (some "Bearer k")) envA [] 0 "r" upNet :=
  outcome_function_of_explicit_inputs _ _ _ _ _ _ _ _ _ _ _ _
    rfl rfl rfl rfl rfl rfl

/-- Claim C5 counterexample: two /auth invocations with identical request,
identical environment and identical (empty) store leave different stores,
because the freshly drawn CSRF state is hidden input not determined by
request, environment and store. -/
theorem hidden_entropy_counterexample :
    (workerFetch (reqOf "GET" "/auth" [] none none) envA [] 0 "a" upNet).store ≠
    (workerFetch (reqOf "GET" "/auth" [] none none) envA [] 0 "b" upNet).store := by
  decide


/-! ### Claim C10 -/

theorem workerFetch_logout_route (req : Req) (env : Env) (store : Store)
    (now : Nat) (rand : String) (up : Up)
    (hm : req.method ≠ "OPTIONS") (hp : req.path = "/logout")
    (hk : validateApiKey req env = true) :
    workerFetch req env store now rand up =
      handleLogout store (corsHeaderOf req.originHeader) := by
  rw [workerFetch_eq_route req env store now rand up hm (Or.inr hk)]
  simp [route, hp, postCatch, handleLogout, jsonResponse]

theorem workerFetch_status_route (req : Req) (env : Env) (store : Store)
    (now : Nat) (rand : String) (up : Up)
    (hm : req.method ≠ "OPTIONS") (hp : req.path = "/status")
    (hk : validateApiKey req env = true) :
    workerFetch req env store now rand up =
      handleStatus store (corsHeaderOf req.originHeader) := by
  rw [workerFetch_eq_route req env store now rand up hm (Or.inr hk)]
  simp [route, hp, postCatch, handleStatus, jsonResponse]

/-- What claim C10 states about /logout and /status: logout reports success
and deletes both token keys; a following /status (on the resulting store)
reports not authenticated; and /status reports authenticated exactly when a
refresh_token key is stored (for stores whose refresh_token value is a
non-empty string, as every value the worker stores there is), leaving the
store unchanged. -/
def LogoutStatusSpec (req : Req) (env : Env) (store : Store) (now : Nat)
    (rand : String) (up : Up) : Prop :=
  (workerFetch req env store now rand up).resp =
      jsonResponse .successJson 200 (corsHeaderOf req.originHeader) ∧
  kvGet (workerFetch req env store now rand up).store "refresh_token" = none ∧
  kvGet (workerFetch req env store now rand up).store "token_data" = none ∧
  (∀ (req2 : Req) (env2 : Env) (now2 : Nat) (rand2 : String) (up2 : Up),
    req2.method ≠ "OPTIONS" → req2.path = "/status" → validateApiKey req2 env2 = true →
    (workerFetch req2 env2 (workerFetch req env store now rand up).store now2 rand2 up2).resp =
      jsonResponse (.statusJson false) 200 (corsHeaderOf req2.originHeader)) ∧
  (∀ (req2 : Req) (env2 : Env) (s : Store) (now2 : Nat) (rand2 : String) (up2 : Up),
    req2.method ≠ "OPTIONS" → req2.path = "/status" → validateApiKey req2 env2 = true →
    (∀ v, kvGet s "refresh_token" = some v → truthyVal v = true) →
    (workerFetch req2 env2 s now2 rand2 up2).resp =
      jsonResponse (.statusJson (kvGet s "refresh_token").isSome) 200
        (corsHeaderOf req2.originHeader) ∧
    (workerFetch req2 env2 s now2 rand2 up2).store = s)

/-- Claim C10: /logout with a valid API key returns success 200, deletes both
refresh_token and token_data, an immediately following /status reports
authenticated false, and /status reports authenticated true exactly when a
refresh_token key is stored. -/
theorem logout_then_status_unauthenticated (req : Req) (env : Env) (store : Store)
    (now : Nat) (rand : String) (up : Up)
    (hm : req.method ≠ "OPTIONS") (hp : req.path = "/logout")
    (hk : validateApiKey req env = true) :
    LogoutStatusSpec req env store now rand up := by
  have hstat : ∀ (req2 : Req) (env2 : Env) (s : Store) (now2 : Nat) (rand2 : String) (up2 : Up),
      req2.method ≠ "OPTIONS" → req2.path = "/status" → validateApiKey req2 env2 = true →
      (∀ v, kvGet s "refresh_token" = some v → truthyVal v = true) →
      (workerFetch req2 env2 s now2 rand2 up2).resp =
        jsonResponse (.statusJson (kvGet s "refresh_token").isSome) 200
          (corsHeaderOf req2.originHeader) ∧
      (workerFetch req2 env2 s now2 rand2 up2).store = s := by
    intro req2 env2 s now2 rand2 up2 hm2 hp2 hk2 hwv
    rw [workerFetch_status_route req2 env2 s now2 rand2 up2 hm2 hp2 hk2]
    have : truthyValO (kvGet s "refresh_token") = (kvGet s "refresh_token").isSome := by
      cases hv : kvGet s "refresh_token" with
      | none => rfl
      | some v => simp [truthyValO, hwv v hv]
    simp [handleStatus, this]
  rw [LogoutStatusSpec, workerFetch_logout_route req env store now rand up hm hp hk]
  have hrt : kvGet (handleLogout store (corsHeaderOf req.originHeader)).store "refresh_token"
      = none := by
    rw [handleLogout]
    rw [kvGet_kvDelete_ne _ _ _ (by decide)]
    exact kvGet_kvDelete_self _ _
  have htd : kvGet (handleLogout store (corsHeaderOf req.originHeader)).store "token_data"
      = none := by
    exact kvGet_kvDelete_self _ _
  refine ⟨rfl, hrt, htd, ?_, hstat⟩
  intro req2 env2 now2 rand2 up2 hm2 hp2 hk2
  have := (hstat req2 env2 _ now2 rand2 up2 hm2 hp2 hk2
    (fun v hv => absurd (hrt ▸ hv) (by simp))).1
  rw [this, hrt]
  rfl

/-- Claim C10 witness: logging out from a store holding both keys, then
asking /status. -/
theorem logout_then_status_unauthenticated_witness :
    LogoutStatusSpec (reqOf "GET" "/logout" [] none (some "Bearer k")) envA
      [("refresh_token", Val.str "r"),
       ("token_data", Val.tok { access_token := "a", expires_at := 99 })] 5 "r" upNet :=
  logout_then_status_unauthenticated _ _ _ _ _ _ (by decide) rfl (by decide)


/-! ### Claim C9 -/

/-- A response either carries no Access-Control-Allow-Origin header or
carries exactly the computed CORS origin `ch`. -/
def corsOk (ch : String) (out : Outcome) : Prop :=
  out.resp.cors = none ∨ out.resp.cors = some ch

theorem corsHeaderOf_mem (origin : Option String) :
    corsHeaderOf origin ∈ ALLOWED_ORIGINS := by
  cases origin with
  | none => decide
  | some o =>
    show (if ALLOWED_ORIGINS.contains o then o else ALLOWED_ORIGINS.headD "") ∈ ALLOWED_ORIGINS
    by_cases h : ALLOWED_ORIGINS.contains o = true
    · rw [if_pos h]
      exact List.mem_of_elem_eq_true h
    · rw [if_neg h]
      decide

theorem handleToken_corsOk (env : Env) (store : Store) (now : Nat)
    (ch : String) (up : Except String TokenWire) :
    corsOk ch (handleToken env store now ch up) := by
  rw [corsOk]
  simp only [handleToken, tokenRefresh]
  repeat' split
  all_goals simp [jsonResponse]

theorem handleCallback_corsOk (req : Req) (env : Env) (store : Store) (now : Nat)
    (ch : String) (up : Except String TokenWire) :
    corsOk ch (handleCallback req env store now up) := by
  rw [corsOk]
  simp only [handleCallback]
  repeat' split
  all_goals simp [jsonResponse, htmlResponse]

theorem handleRSS_corsOk (req : Req) (store : Store) (ch : String)
    (up : Except String RssWire) :
    corsOk ch (handleRSS req store ch up) := by
  rw [corsOk]
  simp only [handleRSS]
  repeat' split
  all_goals simp [jsonResponse]

theorem handleOTRSTickets_corsOk (env : Env) (store : Store) (ch : String)
    (up : OtrsUp) :
    corsOk ch (handleOTRSTickets env store ch up) := by
  rw [corsOk]
  simp only [handleOTRSTickets]
  repeat' split
  all_goals simp [jsonResponse]

theorem postCatch_corsOk (ch : String) (out : Outcome) (h : corsOk ch out) :
    corsOk ch (postCatch ch out) := by
  rw [postCatch]
  split
  · right
    simp [jsonResponse]
  · exact h

theorem route_corsOk (req : Req) (env : Env) (store : Store) (now : Nat)
    (rand : String) (ch : String) (up : Up) :
    corsOk ch (route req env store now rand ch up) := by
  simp only [route]
  repeat' split
  · simp [corsOk, handleAuth]
  · exact handleCallback_corsOk req env store now ch up.tok
  · exact handleToken_corsOk env store now ch up.tok
  · simp [corsOk, handleLogout, jsonResponse]
  · simp [corsOk, handleStatus, jsonResponse]
  · exact handleRSS_corsOk req store ch up.rss
  · exact handleOTRSTickets_corsOk env store ch up.otrs
  · simp [corsOk, jsonResponse]

theorem workerFetch_corsOk (req : Req) (env : Env) (store : Store) (now : Nat)
    (rand : String) (up : Up) :
    corsOk (corsHeaderOf req.originHeader) (workerFetch req env store now rand up) := by
  by_cases hm : (req.method == "OPTIONS") = true
  · right
    simp [workerFetch, hm, handleOptions]
  · by_cases hv : (!publicPaths.contains req.path && !validateApiKey req env) = true
    · have hv2 : req.path ∉ publicPaths ∧ validateApiKey req env = false := by
        simpa using hv
      right
      simp [workerFetch, hm, hv2.1, hv2.2, jsonResponse]
    · have hre : workerFetch req env store now rand up =
          postCatch (corsHeaderOf req.originHeader)
            (route req env store now rand (corsHeaderOf req.originHeader) up) := by
        simp only [workerFetch, hm, Bool.false_eq_true, if_false, hv]
      rw [hre]
      exact postCatch_corsOk _ _ (route_corsOk req env store now rand _ up)

/-- Claim C9 (amended): whenever a response carries an
Access-Control-Allow-Origin header, that header is the allowed-list echo of
the request Origin (the Origin itself when allowed, else the first allowed
origin) and is always a member of ALLOWED_ORIGINS; an unlisted Origin is
never reflected.  (The /auth redirect and the /callback HTML pages carry no
such header at all.) -/
theorem cors_header_in_allowed_origins (req : Req) (env : Env) (store : Store)
    (now : Nat) (rand : String) (up : Up) (o : String)
    (h : (workerFetch req env store now rand up).resp.cors = some o) :
    o = corsHeaderOf req.originHeader ∧ o ∈ ALLOWED_ORIGINS := by
  rcases workerFetch_corsOk req env store now rand up with hc | hc
  · rw [h] at hc
    exact absurd hc (by simp)
  · rw [h] at hc
    obtain rfl : o = corsHeaderOf req.originHeader := by
      injection hc
    exact ⟨rfl, corsHeaderOf_mem _⟩

/-- Claim C9 witness: a /status response carries the first allowed origin
when the request has no Origin header. -/
theorem cors_header_in_allowed_origins_witness :
    "https://sysopbeta.be" =
        corsHeaderOf (reqOf "GET" "/status" [] none (some "Bearer k")).originHeader ∧
    "https://sysopbeta.be" ∈ ALLOWED_ORIGINS :=
  cors_header_in_allowed_origins (reqOf "GET" "/status" [] none (some "Bearer k"))
    envA [] 0 "r" upNet "https://sysopbeta.be" (by decide)

/-- Claim C9 counterexample: a /callback request (here with an allowed Origin
header) is answered with an HTML page carrying no Access-Control-Allow-Origin
header at all, so not every response carries a member of ALLOWED_ORIGINS. -/
theorem callback_no_cors_header_counterexample :
    (workerFetch (reqOf "GET" "/callback" [] (some "https://b3.wtf") none)
        envA [] 0 "r" upNet).resp.cors = none := by
  decide


/-! ### Claim C6 -/

theorem postCatch_fetches (ch : String) (out : Outcome) :
    (postCatch ch out).fetches = out.fetches := by
  rw [postCatch]
  split <;> rfl

theorem postCatch_store (ch : String) (out : Outcome) :
    (postCatch ch out).store = out.store := by
  rw [postCatch]
  split <;> rfl

theorem handleToken_fetches_le (env : Env) (store : Store) (now : Nat)
    (ch : String) (up : Except String TokenWire) :
    (handleToken env store now ch up).fetches ≤ 1 := by
  simp only [handleToken, tokenRefresh]
  repeat' split
  all_goals simp

theorem handleCallback_fetches_le (req : Req) (env : Env) (store : Store) (now : Nat)
    (up : Except String TokenWire) :
    (handleCallback req env store now up).fetches ≤ 1 := by
  simp only [handleCallback]
  repeat' split
  all_goals simp

theorem handleRSS_fetches_le (req : Req) (store : Store) (ch : String)
    (up : Except String RssWire) :
    (handleRSS req store ch up).fetches ≤ 1 := by
  simp only [handleRSS]
  repeat' split
  all_goals simp

/-- Claim C6 (amended): every handler except /otrs/tickets performs at most
one outbound fetch per request; the /otrs/tickets handler performs a login,
two searches and one fetch per found ticket. -/
theorem at_most_one_fetch_outside_otrs (req : Req) (env : Env) (store : Store)
    (now : Nat) (rand : String) (up : Up)
    (hp : req.path ≠ "/otrs/tickets") :
    (workerFetch req env store now rand up).fetches ≤ 1 := by
  by_cases hm : (req.method == "OPTIONS") = true
  · simp [workerFetch, hm]
  · by_cases hv : (!publicPaths.contains req.path && !validateApiKey req env) = true
    · have hv2 : req.path ∉ publicPaths ∧ validateApiKey req env = false := by
        simpa using hv
      simp [workerFetch, hm, hv2.1, hv2.2]
    · have hre : workerFetch req env store now rand up =
          postCatch (corsHeaderOf req.originHeader)
            (route req env store now rand (corsHeaderOf req.originHeader) up) := by
        simp only [workerFetch, hm, Bool.false_eq_true, if_false, hv]
      rw [hre, postCatch_fetches]
      simp only [route]
      repeat' split
      · simp [handleAuth]
      · exact handleCallback_fetches_le req env store now up.tok
      · exact handleToken_fetches_le env store now _ up.tok
      · simp [handleLogout]
      · simp [handleStatus]
      · exact handleRSS_fetches_le req store _ up.rss
      · rename_i hx
        exact absurd (by simpa using hx) hp
      · simp

/-- Claim C6 witness: a /token request performs at most one fetch. -/
theorem at_most_one_fetch_outside_otrs_witness :
    (workerFetch (reqOf "GET" "/token" [] none (some "Bearer k"))
      envA [("refresh_token", Val.str "r")] 0 "r" upNet).fetches ≤ 1 :=
  at_most_one_fetch_outside_otrs (reqOf "GET" "/token" [] none (some "Bearer k"))
    envA [("refresh_token", Val.str "r")] 0 "r" upNet (by decide)

/-- An upstream oracle where the OTOBO login succeeds and both searches
return no tickets and no error. -/
def upOtrsEmpty : Up :=
  { tok := .error "NetworkError", rss := .error "NetworkError",
    otrs := { login := .ok (some "sid"),
              searchNew := .ok { hasError := false, ticketID := [] },
              searchOpen := .ok { hasError := false, ticketID := [] },
              get := fun _ => .error "NetworkError" } }

/-- Claim C6 counterexample: an /otrs/tickets request performs three outbound
fetches (login and two searches) even when no ticket exists, so not every
handler performs at most one outbound fetch. -/
theorem otrs_multiple_fetches_counterexample :
    (workerFetch (reqOf "GET" "/otrs/tickets" [] none (some "Bearer k"))
        envA [] 0 "r" upOtrsEmpty).fetches = 3 ∧
    ¬ (workerFetch (reqOf "GET" "/otrs/tickets" [] none (some "Bearer k"))
        envA [] 0 "r" upOtrsEmpty).fetches ≤ 1 := by
  constructor <;> decide


/-! ### Claim C4 -/

/-- A key the worker may write: one of the two token keys, or a CSRF state
key `oauth_state:<state>`. -/
def GoodKey (k : String) : Prop :=
  k = "refresh_token" ∨ k = "token_data" ∨ ∃ r, k = "oauth_state:" ++ r

/-- Every key of the store is one the worker may write. -/
def GoodKeys (s : Store) : Prop := ∀ p ∈ s, GoodKey p.1

theorem GoodKeys_nil : GoodKeys [] := fun p hp => absurd hp (List.not_mem_nil p)

theorem GoodKeys_kvDelete (s : Store) (k : String) (h : GoodKeys s) :
    GoodKeys (kvDelete s k) := fun p hp => h p (List.mem_of_mem_filter hp)

theorem GoodKeys_kvPut (s : Store) (k : String) (v : Val) (h : GoodKeys s)
    (hk : GoodKey k) : GoodKeys (kvPut s k v) := by
  intro p hp
  rcases List.mem_cons.mp hp with rfl | hp2
  · exact hk
  · exact GoodKeys_kvDelete s k h p hp2

theorem handleAuth_goodKeys (env : Env) (req : Req) (store : Store) (rand : String)
    (h : GoodKeys store) : GoodKeys (handleAuth env req store rand).store := by
  simp only [handleAuth]
  exact GoodKeys_kvPut _ _ _ h (Or.inr (Or.inr ⟨rand, rfl⟩))

theorem handleCallback_goodKeys (req : Req) (env : Env) (store : Store) (now : Nat)
    (up : Except String TokenWire) (h : GoodKeys store) :
    GoodKeys (handleCallback req env store now up).store := by
  simp only [handleCallback]
  repeat' split
  all_goals first
    | exact h
    | exact GoodKeys_kvDelete _ _ h
    | exact GoodKeys_kvPut _ _ _
        (GoodKeys_kvPut _ _ _ (GoodKeys_kvDelete _ _ h) (Or.inl rfl))
        (Or.inr (Or.inl rfl))
    | exact GoodKeys_kvPut _ _ _ (GoodKeys_kvDelete _ _ h) (Or.inr (Or.inl rfl))

theorem handleToken_goodKeys (env : Env) (store : Store) (now : Nat) (ch : String)
    (up : Except String TokenWire) (h : GoodKeys store) :
    GoodKeys (handleToken env store now ch up).store := by
  simp only [handleToken, tokenRefresh]
  repeat' split
  all_goals first
    | exact h
    | exact GoodKeys_kvDelete _ _ (GoodKeys_kvDelete _ _ h)
    | exact GoodKeys_kvPut _ _ _
        (GoodKeys_kvPut _ _ _ h (Or.inr (Or.inl rfl)))
        (Or.inl rfl)
    | exact GoodKeys_kvPut _ _ _ h (Or.inr (Or.inl rfl))

theorem handleLogout_goodKeys (store : Store) (ch : String) (h : GoodKeys store) :
    GoodKeys (handleLogout store ch).store := by
  simp only [handleLogout]
  exact GoodKeys_kvDelete _ _ (GoodKeys_kvDelete _ _ h)

theorem handleRSS_store_eq (req : Req) (store : Store) (ch : String)
    (up : Except String RssWire) : (handleRSS req store ch up).store = store := by
  simp only [handleRSS]
  repeat' split
  all_goals rfl

theorem handleOTRSTickets_store_eq (env : Env) (store : Store) (ch : String)
    (up : OtrsUp) : (handleOTRSTickets env store ch up).store = store := by
  simp only [handleOTRSTickets]
  repeat' split
  all_goals rfl

theorem workerFetch_goodKeys (req : Req) (env : Env) (store : Store) (now : Nat)
    (rand : String) (up : Up) (h : GoodKeys store) :
    GoodKeys (workerFetch req env store now rand up).store := by
  by_cases hm : (req.method == "OPTIONS") = true
  · simpa [workerFetch, hm] using h
  · by_cases hv : (!publicPaths.contains req.path && !validateApiKey req env) = true
    · have hv2 : req.path ∉ publicPaths ∧ validateApiKey req env = false := by
        simpa using hv
      simpa [workerFetch, hm, hv2.1, hv2.2] using h
    · have hre : workerFetch req env store now rand up =
          postCatch (corsHeaderOf req.originHeader)
            (route req env store now rand (corsHeaderOf req.originHeader) up) := by
        simp only [workerFetch, hm, Bool.false_eq_true, if_false, hv]
      rw [hre, postCatch_store]
      simp only [route]
      repeat' split
      · exact handleAuth_goodKeys env req store rand h
      · exact handleCallback_goodKeys req env store now up.tok h
      · exact handleToken_goodKeys env store now _ up.tok h
      · exact handleLogout_goodKeys store _ h
      · exact h
      · rw [handleRSS_store_eq]
        exact h
      · rw [handleOTRSTickets_store_eq]
        exact h
      · exact h

theorem runSeq_goodKeys (steps : List StepIn) (store : Store) (h : GoodKeys store) :
    GoodKeys (runSeq store steps) := by
  induction steps generalizing store with
  | nil => exact h
  | cons i is ih => exact ih _ (workerFetch_goodKeys i.req i.env store i.now i.rand i.up h)

/-- Claim C4 (amended): for every sequence of requests starting from the
empty store, after each request every stored key is refresh_token,
token_data, or a CSRF state key of the form oauth_state:<state> — the /auth
handler also persists CSRF state entries, so the store is not limited to the
two token keys. -/
theorem store_keys_bounded_amended (steps : List StepIn) :
    ∀ p ∈ runSeq [] steps,
      p.1 = "refresh_token" ∨ p.1 = "token_data" ∨ ∃ r, p.1 = "oauth_state:" ++ r :=
  runSeq_goodKeys steps [] GoodKeys_nil

/-- A single /auth request from the empty store. -/
def authStep : StepIn :=
  { req := reqOf "GET" "/auth" [] none none, env := envA, now := 0,
    rand := "abc", up := upNet }

/-- Claim C4 counterexample: after one /auth request from the empty store the
store holds the CSRF state entry oauth_state:abc, which is neither
refresh_token nor token_data. -/
theorem oauth_state_key_counterexample :
    ¬ (∀ p ∈ runSeq [] [authStep], p.1 = "refresh_token" ∨ p.1 = "token_data") := by
  decide


/-- Claim C4 witness: the entry stored by a single /auth request from the
empty store has an allowed key. -/
theorem store_keys_bounded_amended_witness :
    ("oauth_state:abc", Val.str "valid").1 = "refresh_token" ∨
    ("oauth_state:abc", Val.str "valid").1 = "token_data" ∨
    ∃ r, ("oauth_state:abc", Val.str "valid").1 = "oauth_state:" ++ r :=
  store_keys_bounded_amended [authStep] ("oauth_state:abc", Val.str "valid") (by decide)


/-! ### Claim C2 -/

theorem oauth_key_ne_refresh_token (st : String) :
    ("oauth_state:" ++ st) ≠ "refresh_token" := by
  intro h
  have h2 : ("oauth_state:" ++ st).data.head? = "refresh_token".data.head? := by rw [h]
  obtain ⟨l⟩ := st
  have h3 : (some 'o' : Option Char) = some 'r' := h2
  exact absurd h3 (by decide)

theorem oauth_key_ne_token_data (st : String) :
    ("oauth_state:" ++ st) ≠ "token_data" := by
  intro h
  have h2 : ("oauth_state:" ++ st).data.head? = "token_data".data.head? := by rw [h]
  obtain ⟨l⟩ := st
  have h3 : (some 'o' : Option Char) = some 't' := h2
  exact absurd h3 (by decide)

/-- The four failure pages of `handleCallback` that render the
Authorization Failed heading. -/
def isAuthFailedPage : Page → Bool
  | .errParam _ => true
  | .missingState => true
  | .invalidState => true
  | .noCode => true
  | _ => false

theorem workerFetch_callback_route (req : Req) (env : Env) (store : Store)
    (now : Nat) (rand : String) (up : Up)
    (hm : req.method ≠ "OPTIONS") (hp : req.path = "/callback") :
    workerFetch req env store now rand up =
      postCatch (corsHeaderOf req.originHeader)
        (handleCallback req env store now up.tok) := by
  rw [workerFetch_eq_route req env store now rand up hm (Or.inl (by simp [publicPaths, hp]))]
  simp [route, hp]

/-- A missing or unknown CSRF state makes `handleCallback` return a failure
page without touching the store or the network. -/
theorem handleCallback_invalid_state (req : Req) (env : Env) (store : Store) (now : Nat)
    (up : Except String TokenWire)
    (h : queryGet req.query "state" = none ∨
         kvGet store ("oauth_state:" ++ (queryGet req.query "state").getD "") = none) :
    ∃ p, handleCallback req env store now up =
        { resp := htmlResponse p, store := store, fetches := 0 } ∧
      isAuthFailedPage p = true := by
  by_cases he : truthyStr (queryGet req.query "error") = true
  · exact ⟨.errParam (escapeHtml ((queryGet req.query "error").getD "")), by
      simp [handleCallback, he], rfl⟩
  · by_cases hst : truthyStr (queryGet req.query "state") = true
    · have hkv : kvGet store ("oauth_state:" ++ (queryGet req.query "state").getD "")
          = none := by
        rcases h with h | h
        · rw [h] at hst
          simp [truthyStr] at hst
        · exact h
      refine ⟨.invalidState, ?_, rfl⟩
      simp [handleCallback, he, hst, hkv, truthyValO]
    · exact ⟨.missingState, by simp [handleCallback, he, hst], rfl⟩

/-- A matching CSRF state entry is deleted before the code exchange, on every
branch of `handleCallback`. -/
theorem handleCallback_deletes_state (req : Req) (env : Env) (store : Store) (now : Nat)
    (up : Except String TokenWire) (st : String)
    (he : queryGet req.query "error" = none)
    (hst : queryGet req.query "state" = some st) (hne : st ≠ "")
    (hkv : truthyValO (kvGet store ("oauth_state:" ++ st)) = true) :
    kvGet (handleCallback req env store now up).store ("oauth_state:" ++ st) = none := by
  have h1 : ("oauth_state:" ++ st) ≠ "token_data" := oauth_key_ne_token_data st
  have h2 : ("oauth_state:" ++ st) ≠ "refresh_token" := oauth_key_ne_refresh_token st
  have he2 : truthyStr (queryGet req.query "error") = false := by rw [he]; rfl
  have hst2 : truthyStr (queryGet req.query "state") = true := by
    rw [hst]
    simpa [truthyStr] using hne
  have hgd : (queryGet req.query "state").getD "" = st := by rw [hst]; rfl
  simp only [handleCallback, he2, Bool.false_eq_true, if_false, hst2, Bool.not_true,
    hgd, hkv]
  repeat' split
  all_goals simp only [kvGet_kvPut_ne _ _ _ _ h1, kvGet_kvPut_ne _ _ _ _ h2,
    kvGet_kvDelete_self]

/-- What claim C2 states about /callback CSRF handling: a missing or unknown
state yields a failure page with no exchange and no store change; a matching
state entry is deleted before the exchange, so replaying the same request
fails with no exchange and no store change. -/
def CallbackCsrfSpec (req : Req) (env : Env) (store : Store) (now : Nat)
    (rand : String) (up : Up) : Prop :=
  ((queryGet req.query "state" = none ∨
      kvGet store ("oauth_state:" ++ (queryGet req.query "state").getD "") = none) →
    ∃ p, workerFetch req env store now rand up =
        { resp := htmlResponse p, store := store, fetches := 0 } ∧
      isAuthFailedPage p = true) ∧
  (∀ st, queryGet req.query "error" = none → queryGet req.query "state" = some st →
    st ≠ "" → truthyValO (kvGet store ("oauth_state:" ++ st)) = true →
    kvGet (workerFetch req env store now rand up).store ("oauth_state:" ++ st) = none ∧
    (∀ (now2 : Nat) (rand2 : String) (up2 : Up),
      ∃ p, workerFetch req env (workerFetch req env store now rand up).store now2 rand2 up2 =
          { resp := htmlResponse p,
            store := (workerFetch req env store now rand up).store, fetches := 0 } ∧
        isAuthFailedPage p = true))

/-- Claim C2: /callback validates the CSRF state; an absent or unknown state
yields an authorization-failed page with no token exchange and no KV write,
and a matching state entry is deleted before the exchange so that a second
/callback reusing the same state fails. -/
theorem callback_csrf_state_validation (req : Req) (env : Env) (store : Store)
    (now : Nat) (rand : String) (up : Up)
    (hm : req.method ≠ "OPTIONS") (hp : req.path = "/callback") :
    CallbackCsrfSpec req env store now rand up := by
  rw [CallbackCsrfSpec]
  constructor
  · intro h
    obtain ⟨p, hcb, hfp⟩ := handleCallback_invalid_state req env store now up.tok h
    refine ⟨p, ?_, hfp⟩
    rw [workerFetch_callback_route req env store now rand up hm hp, hcb]
    simp [postCatch, htmlResponse]
  · intro st he hst hne hkv
    have hdel : kvGet (workerFetch req env store now rand up).store
        ("oauth_state:" ++ st) = none := by
      rw [workerFetch_callback_route req env store now rand up hm hp, postCatch_store]
      exact handleCallback_deletes_state req env store now up.tok st he hst hne hkv
    refine ⟨hdel, ?_⟩
    intro now2 rand2 up2
    have hgd : (queryGet req.query "state").getD "" = st := by rw [hst]; rfl
    obtain ⟨p, hcb, hfp⟩ := handleCallback_invalid_state req env
      (workerFetch req env store now rand up).store now2 up2.tok
      (Or.inr (by rw [hgd]; exact hdel))
    refine ⟨p, ?_, hfp⟩
    rw [workerFetch_callback_route req env _ now2 rand2 up2 hm hp, hcb]
    simp [postCatch, htmlResponse]

/-- An upstream oracle whose Google token exchange succeeds. -/
def upTokOk : Up :=
  { tok := .ok { error := none, error_description := none,
                 access_token := "at1", expires_in := 3600, refresh_token := some "rt1" },
    rss := .error "NetworkError",
    otrs := { login := .error "NetworkError", searchNew := .error "NetworkError",
              searchOpen := .error "NetworkError", get := fun _ => .error "NetworkError" } }

/-- Claim C2 witness: a /callback carrying a state that matches the stored
entry (and a code, with a successful exchange). -/
theorem callback_csrf_state_validation_witness :
    CallbackCsrfSpec
      (reqOf "GET" "/callback" [("state", "s1"), ("code", "c1")] none none)
      envA [("oauth_state:s1", Val.str "valid")] 0 "r" upTokOk :=
  callback_csrf_state_validation
    (reqOf "GET" "/callback" [("state", "s1"), ("code", "c1")] none none)
    envA [("oauth_state:s1", Val.str "valid")] 0 "r" upTokOk (by decide) rfl


/-! ### Claim C3 -/

/-- The cache condition of `handleToken`: the stored token record, when it is
still valid for more than five minutes past `now`. -/
def tokenCacheValid (store : Store) (now : Nat) : Option TokenData :=
  match kvGet store "token_data" with
  | some (.tok td) => if now + 300000 < td.expires_at then some td else none
  | _ => none

/-- The `token_data` value, when present, is a stored token record (as every
value the worker writes there is); a plain string there would make
`JSON.parse` throw. -/
def tokenDataWf (store : Store) : Bool :=
  match kvGet store "token_data" with
  | some (.str _) => false
  | _ => true

theorem workerFetch_token_route (req : Req) (env : Env) (store : Store)
    (now : Nat) (rand : String) (up : Up)
    (hm : req.method ≠ "OPTIONS") (hp : req.path = "/token")
    (hk : validateApiKey req env = true) :
    workerFetch req env store now rand up =
      postCatch (corsHeaderOf req.originHeader)
        (handleToken env store now (corsHeaderOf req.originHeader) up.tok) := by
  rw [workerFetch_eq_route req env store now rand up hm (Or.inr hk)]
  simp [route, hp]

/-- With a stored refresh token and no valid cached token, `handleToken`
falls through to the refresh-token grant. -/
theorem handleToken_cache_miss (env : Env) (store : Store) (now : Nat)
    (ch : String) (up : Except String TokenWire)
    (hrt : truthyValO (kvGet store "refresh_token") = true)
    (hwf : tokenDataWf store = true)
    (hmiss : tokenCacheValid store now = none) :
    handleToken env store now ch up = tokenRefresh store now ch up := by
  simp only [handleToken, hrt, Bool.not_true, Bool.false_eq_true, if_false]
  cases hv : kvGet store "token_data" with
  | none => simp [hv]
  | some v =>
    cases v with
    | tok td =>
      simp only [hv]
      rw [if_neg]
      intro hlt
      rw [tokenCacheValid, hv] at hmiss
      simp [hlt] at hmiss
    | str s =>
      exfalso
      rw [tokenDataWf, hv] at hwf
      simp at hwf

/-- The refresh-token grant on an upstream OAuth error: the error is passed
through with status 401, and the stored tokens are cleared exactly when the
error is invalid_grant. -/
theorem tokenRefresh_error (store : Store) (now : Nat) (ch : String)
    (tw : TokenWire) (e : String)
    (he : tw.error = some e) (hne : e ≠ "") :
    tokenRefresh store now ch (.ok tw) =
      { resp := jsonResponse (.jsonError e (some (if truthyStr tw.error_description then
          tw.error_description.getD "" else "Token refresh failed"))) 401 ch,
        store := if e = "invalid_grant" then
            kvDelete (kvDelete store "refresh_token") "token_data"
          else store,
        fetches := 1 } := by
  by_cases hig : e = "invalid_grant"
  · subst hig
    simp [tokenRefresh, he, truthyStr]
  · simp [tokenRefresh, he, truthyStr, hne, hig]

/-- `handleCallback` on an upstream error during the code exchange: the
upstream error is shown on the failure page, and the store holds exactly the
pre-exchange state (the oauth_state entry deleted, nothing else touched). -/
theorem handleCallback_exchange_error (req : Req) (env : Env) (store : Store)
    (now : Nat) (tw : TokenWire) (e st c : String)
    (he : queryGet req.query "error" = none)
    (hst : queryGet req.query "state" = some st) (hne : st ≠ "")
    (hkv : truthyValO (kvGet store ("oauth_state:" ++ st)) = true)
    (hc : queryGet req.query "code" = some c) (hcne : c ≠ "")
    (hterr : tw.error = some e) (hene : e ≠ "") :
    handleCallback req env store now (.ok tw) =
      { resp := htmlResponse (.exchangeFailed (if truthyStr tw.error_description then
          tw.error_description.getD "" else e)),
        store := kvDelete store ("oauth_state:" ++ st), fetches := 1 } := by
  have he2 : truthyStr (queryGet req.query "error") = false := by rw [he]; rfl
  have hst2 : truthyStr (queryGet req.query "state") = true := by
    rw [hst]
    simpa [truthyStr] using hne
  have hgd : (queryGet req.query "state").getD "" = st := by rw [hst]; rfl
  have hc2 : truthyStr (queryGet req.query "code") = true := by
    rw [hc]
    simpa [truthyStr] using hcne
  have ht : truthyStr (some e) = true := by simpa [truthyStr] using hene
  simp [handleCallback, he2, hst2, hgd, hkv, hc2, ht, hterr]

/-- What the amended claim C3 states: on an upstream OAuth error the handler
passes the error through to the client and performs no KV write on the error
path — except that /token clears refresh_token and token_data when the error
is invalid_grant (and /callback has already deleted the oauth_state entry
before the exchange, regardless of its outcome). -/
def ErrorPassThroughSpec (req : Req) (env : Env) (store : Store) (now : Nat)
    (rand : String) (up : Up) : Prop :=
  (∀ tw e, req.method ≠ "OPTIONS" → req.path = "/token" → validateApiKey req env = true →
    up.tok = .ok tw → tw.error = some e → e ≠ "" →
    truthyValO (kvGet store "refresh_token") = true →
    tokenDataWf store = true → tokenCacheValid store now = none →
    (workerFetch req env store now rand up).resp =
      jsonResponse (.jsonError e (some (if truthyStr tw.error_description then
        tw.error_description.getD "" else "Token refresh failed"))) 401
        (corsHeaderOf req.originHeader) ∧
    (e ≠ "invalid_grant" → (workerFetch req env store now rand up).store = store) ∧
    (e = "invalid_grant" → (workerFetch req env store now rand up).store =
      kvDelete (kvDelete store "refresh_token") "token_data")) ∧
  (∀ tw e st c, req.method ≠ "OPTIONS" → req.path = "/callback" →
    queryGet req.query "error" = none → queryGet req.query "state" = some st → st ≠ "" →
    truthyValO (kvGet store ("oauth_state:" ++ st)) = true →
    queryGet req.query "code" = some c → c ≠ "" →
    up.tok = .ok tw → tw.error = some e → e ≠ "" →
    (workerFetch req env store now rand up).resp =
      htmlResponse (.exchangeFailed (if truthyStr tw.error_description then
        tw.error_description.getD "" else e)) ∧
    (workerFetch req env store now rand up).store = kvDelete store ("oauth_state:" ++ st))

/-- Claim C3 (amended): upstream OAuth errors are passed through to the
client; the store is left unchanged on the error path, except that /token
deletes refresh_token and token_data when the upstream error is
invalid_grant (and /callback deleted the oauth_state entry before the
exchange). -/
theorem upstream_error_passthrough_amended (req : Req) (env : Env) (store : Store)
    (now : Nat) (rand : String) (up : Up) :
    ErrorPassThroughSpec req env store now rand up := by
  rw [ErrorPassThroughSpec]
  constructor
  · intro tw e hm hp hk hup hterr hene hrt hwf hmiss
    rw [workerFetch_token_route req env store now rand up hm hp hk,
      handleToken_cache_miss env store now _ up.tok hrt hwf hmiss, hup,
      tokenRefresh_error store now _ tw e hterr hene]
    by_cases hig : e = "invalid_grant"
    · refine ⟨by simp [postCatch, jsonResponse], ?_, ?_⟩
      · intro h
        exact absurd hig h
      · intro _
        simp [postCatch, jsonResponse, hig]
    · refine ⟨by simp [postCatch, jsonResponse], ?_, ?_⟩
      · intro _
        simp [postCatch, jsonResponse, hig]
      · intro h
        exact absurd h hig
  · intro tw e st c hm hp he hst hne hkv hc hcne hup hterr hene
    rw [workerFetch_callback_route req env store now rand up hm hp, hup,
      handleCallback_exchange_error req env store now tw e st c he hst hne hkv hc hcne
        hterr hene]
    exact ⟨by simp [postCatch, htmlResponse], by simp [postCatch, htmlResponse]⟩

/-- An upstream oracle whose Google token endpoint reports invalid_grant. -/
def upInvalidGrant : Up :=
  { tok := .ok { error := some "invalid_grant", error_description := none,
                 access_token := "", expires_in := 0, refresh_token := none },
    rss := .error "NetworkError",
    otrs := { login := .error "NetworkError", searchNew := .error "NetworkError",
              searchOpen := .error "NetworkError", get := fun _ => .error "NetworkError" } }

/-- Claim C3 counterexample: when the refresh grant fails with invalid_grant,
/token passes the 401 error through but also deletes the stored
refresh_token, so the error path does not leave the key-value state
unchanged. -/
theorem invalid_grant_clears_tokens_counterexample :
    (workerFetch (reqOf "GET" "/token" [] none (some "Bearer k")) envA
        [("refresh_token", Val.str "r")] 0 "r" upInvalidGrant).resp.status = 401 ∧
    (workerFetch (reqOf "GET" "/token" [] none (some "Bearer k")) envA
        [("refresh_token", Val.str "r")] 0 "r" upInvalidGrant).store = [] ∧
    [("refresh_token", Val.str "r")] ≠ ([] : Store) := by
  refine ⟨?_, ?_, ?_⟩ <;> decide

/-- An upstream oracle whose Google token endpoint reports a server_error. -/
def upServerError : Up :=
  { tok := .ok { error := some "server_error", error_description := none,
                 access_token := "", expires_in := 0, refresh_token := none },
    rss := .error "NetworkError",
    otrs := { login := .error "NetworkError", searchNew := .error "NetworkError",
              searchOpen := .error "NetworkError", get := fun _ => .error "NetworkError" } }

/-- Claim C3 witness. -/
theorem upstream_error_passthrough_amended_witness :
    ErrorPassThroughSpec (reqOf "GET" "/token" [] none (some "Bearer k")) envA
      [("refresh_token", Val.str "r")] 0 "r" upServerError :=
  upstream_error_passthrough_amended (reqOf "GET" "/token" [] none (some "Bearer k"))
    envA [("refresh_token", Val.str "r")] 0 "r" upServerError


/-! ### Claim C1 -/

theorem tokenCacheValid_some (store : Store) (now : Nat) (td : TokenData)
    (h : tokenCacheValid store now = some td) :
    kvGet store "token_data" = some (.tok td) ∧ now + 300000 < td.expires_at := by
  rw [tokenCacheValid] at h
  cases hv : kvGet store "token_data" with
  | none =>
    simp only [hv] at h
    exact absurd h (by simp)
  | some v =>
    cases v with
    | str s =>
      simp only [hv] at h
      exact absurd h (by simp)
    | tok td2 =>
      simp only [hv] at h
      by_cases hlt : now + 300000 < td2.expires_at
      · rw [if_pos hlt] at h
        obtain rfl : td2 = td := by injection h
        exact ⟨rfl, hlt⟩
      · rw [if_neg hlt] at h
        exact absurd h (by simp)

/-- With a stored refresh token and a cached token valid for more than five
minutes, `handleToken` serves the cache: no fetch, no store change, and
expires_in recomputed from the stored expiry. -/
theorem handleToken_cache_hit (env : Env) (store : Store) (now : Nat)
    (ch : String) (up : Except String TokenWire) (td : TokenData)
    (hrt : truthyValO (kvGet store "refresh_token") = true)
    (hcv : tokenCacheValid store now = some td) :
    handleToken env store now ch up =
      { resp := jsonResponse (.tokenJson td.access_token ((td.expires_at - now) / 1000))
          200 ch,
        store := store, fetches := 0 } := by
  obtain ⟨hkv, hlt⟩ := tokenCacheValid_some store now td hcv
  simp [handleToken, hrt, hkv, hlt]

theorem tokenRefresh_fetches (store : Store) (now : Nat) (ch : String) (tw : TokenWire) :
    (tokenRefresh store now ch (.ok tw)).fetches = 1 := by
  simp only [tokenRefresh]
  repeat' split
  all_goals rfl

/-- The refresh-token grant on upstream success: the new token is returned
with status 200 and cached with expiry now + expires_in seconds. -/
theorem tokenRefresh_success (store : Store) (now : Nat) (ch : String) (tw : TokenWire)
    (he : tw.error = none) :
    tokenRefresh store now ch (.ok tw) =
      { resp := jsonResponse (.tokenJson tw.access_token tw.expires_in) 200 ch,
        store := if truthyStr tw.refresh_token then
            kvPut (kvPut store "token_data"
                (.tok { access_token := tw.access_token,
                        expires_at := now + tw.expires_in * 1000 }))
              "refresh_token" (.str (tw.refresh_token.getD ""))
          else kvPut store "token_data"
            (.tok { access_token := tw.access_token,
                    expires_at := now + tw.expires_in * 1000 }),
        fetches := 1 } := by
  by_cases hr : truthyStr tw.refresh_token = true
  · simp [tokenRefresh, he, truthyStr, hr]
  · simp [tokenRefresh, he, truthyStr, hr]

/-- What claim C1 states about /token with a stored refresh token: the cached
access token is returned (with expires_in recomputed as
floor((expires_at - now)/1000)) without any fetch exactly when the cached
record expires more than 300000 ms after now; otherwise one refresh-token
grant is performed and, on success, the new token is stored with
expires_at = now + expires_in * 1000 and returned with status 200. -/
def TokenCacheSpec (req : Req) (env : Env) (store : Store) (now : Nat)
    (rand : String) (up : Up) (tw : TokenWire) : Prop :=
  ((workerFetch req env store now rand up).fetches = 0 ↔
    (tokenCacheValid store now).isSome = true) ∧
  (∀ td, tokenCacheValid store now = some td →
    workerFetch req env store now rand up =
      { resp := jsonResponse (.tokenJson td.access_token ((td.expires_at - now) / 1000))
          200 (corsHeaderOf req.originHeader),
        store := store, fetches := 0 }) ∧
  (tokenCacheValid store now = none → tw.error = none →
    (workerFetch req env store now rand up).resp =
      jsonResponse (.tokenJson tw.access_token tw.expires_in) 200
        (corsHeaderOf req.originHeader) ∧
    kvGet (workerFetch req env store now rand up).store "token_data" =
      some (.tok { access_token := tw.access_token,
                   expires_at := now + tw.expires_in * 1000 }) ∧
    (workerFetch req env store now rand up).fetches = 1)

/-- Claim C1: a /token request with a valid API key and a stored refresh
token serves the cached access token if and only if the cached record is
valid for more than five minutes; otherwise it performs a refresh-token
grant and, on success, stores and returns the new access token with 200. -/
theorem token_endpoint_cache_and_refresh (req : Req) (env : Env) (store : Store)
    (now : Nat) (rand : String) (up : Up) (tw : TokenWire)
    (hm : req.method ≠ "OPTIONS") (hp : req.path = "/token")
    (hk : validateApiKey req env = true)
    (hrt : truthyValO (kvGet store "refresh_token") = true)
    (hwf : tokenDataWf store = true)
    (hup : up.tok = .ok tw) :
    TokenCacheSpec req env store now rand up tw := by
  rw [TokenCacheSpec]
  rw [workerFetch_token_route req env store now rand up hm hp hk, hup]
  cases hcv : tokenCacheValid store now with
  | some td =>
    rw [handleToken_cache_hit env store now _ (.ok tw) td hrt hcv]
    refine ⟨?_, ?_, ?_⟩
    · simp [postCatch, jsonResponse, hcv]
    · intro td2 h2
      obtain rfl : td = td2 := by injection h2
      simp [postCatch, jsonResponse]
    · intro h2
      exact absurd h2 (by simp)
  | none =>
    rw [handleToken_cache_miss env store now _ (.ok tw) hrt hwf hcv]
    refine ⟨?_, ?_, ?_⟩
    · rw [postCatch_fetches, tokenRefresh_fetches]
      simp
    · intro td2 h2
      exact absurd h2 (by simp)
    · intro _ herr
      rw [tokenRefresh_success store now _ tw herr]
      by_cases hr : truthyStr tw.refresh_token = true
      · rw [if_pos hr]
        refine ⟨by simp [postCatch, jsonResponse], ?_, by simp [postCatch, jsonResponse]⟩
        rw [postCatch_store]
        show kvGet (kvPut _ "refresh_token" _) "token_data" = _
        rw [kvGet_kvPut_ne _ _ _ _ (by decide), kvGet_kvPut_self]
      · rw [if_neg hr]
        refine ⟨by simp [postCatch, jsonResponse], ?_, by simp [postCatch, jsonResponse]⟩
        rw [postCatch_store]
        show kvGet (kvPut _ "token_data" _) "token_data" = _
        rw [kvGet_kvPut_self]

/-- An upstream oracle whose Google token endpoint returns a fresh access
token (and no new refresh token). -/
def upFreshToken : Up :=
  { tok := .ok { error := none, error_description := none,
                 access_token := "at2", expires_in := 3599, refresh_token := none },
    rss := .error "NetworkError",
    otrs := { login := .error "NetworkError", searchNew := .error "NetworkError",
              searchOpen := .error "NetworkError", get := fun _ => .error "NetworkError" } }

/-- Claim C1 witness: a /token request with a stored refresh token, an
expired cached token, and a successful upstream refresh. -/
theorem token_endpoint_cache_and_refresh_witness :
    TokenCacheSpec (reqOf "GET" "/token" [] none (some "Bearer k")) envA
      [("refresh_token", Val.str "r"),
       ("token_data", Val.tok { access_token := "old", expires_at := 200000 })]
      0 "r" upFreshToken
      { error := none, error_description := none,
        access_token := "at2", expires_in := 3599, refresh_token := none } :=
  token_endpoint_cache_and_refresh (reqOf "GET" "/token" [] none (some "Bearer k")) envA
    [("refresh_token", Val.str "r"),
     ("token_data", Val.tok { access_token := "old", expires_at := 200000 })]
    0 "r" upFreshToken
    { error := none, error_description := none,
      access_token := "at2", expires_in := 3599, refresh_token := none }
    (by decide) rfl (by decide) (by decide) (by decide) rfl


end Worker
